import Mathlib

/-!
Verification of the architecture-checking tool (src/check-image.py).

The tool inspects a container-image reference, detects its registry,
parses it into repository and tag, fetches the image manifest (modelled
here through an abstract HTTP oracle), and resolves the list of CPU
architectures the image supports; a reporter compares the result with
the required set of architectures.

This file gives a shallow embedding of that logic:

* JSON documents are modelled by the inductive type Json, with Python
  dictionary lookup (Json.getKey) and Python truthiness (Json.truthy).
* Pure string functions (detect_registry, parse_image_spec) are
  translated directly.
* Network access is an explicit oracle parameter
  http : String -> List (String x String) -> Option Json
  mapping a URL and a header/parameter list to the decoded JSON body
  (none models any request exception or non-2xx status).
* The environment is an oracle env : String -> Option String.
* Places where the Python code would raise an uncaught exception
  (for example indexing a missing dictionary key inside the list
  comprehension of check_architectures) are modelled by Option, with
  none for the crash; all claims are stated on non-crashing inputs.
-/

/-- JSON values, as decoded from registry responses. -/
inductive Json where
  | null : Json
  | bool : Bool → Json
  | str : String → Json
  | num : Int → Json
  | arr : List Json → Json
  | obj : List (String × Json) → Json

/-- Lookup of a key in a JSON object field list (Python dict access). -/
def lookupField : List (String × Json) → String → Option Json
  | [], _ => none
  | (k, v) :: rest, key => if k == key then some v else lookupField rest key

/-- Python dict .get: some value when the receiver is an object holding
the key, none otherwise. -/
def Json.getKey : Json → String → Option Json
  | Json.obj fs, key => lookupField fs key
  | _, _ => none

/-- Python truthiness of a JSON value: empty strings, empty lists, empty
objects, zero and null are falsy. -/
def Json.truthy : Json → Bool
  | Json.null => false
  | Json.bool b => b
  | Json.str s => s != ""
  | Json.num n => n != 0
  | Json.arr xs => !xs.isEmpty
  | Json.obj fs => !fs.isEmpty

/-- Python truthiness of an optional JSON value (a dict .get result):
an absent key is falsy. -/
def optTruthy : Option Json → Bool
  | none => false
  | some v => v.truthy

/-- Python truthiness of an optional string (None or str). -/
def optStrTruthy : Option String → Bool
  | none => false
  | some s => s != ""

/-- Whether the character list s starts with the character list p. -/
def leadsWith : List Char → List Char → Bool
  | [], _ => true
  | _ :: _, [] => false
  | p :: ps, c :: cs => p == c && leadsWith ps cs

/-- Whether the character list pat occurs contiguously inside s. -/
def hasSubList (pat : List Char) : List Char → Bool
  | [] => pat.isEmpty
  | c :: cs => leadsWith pat (c :: cs) || hasSubList pat cs

/-- Python membership test for strings: pyIn pat s models pat in s. -/
def pyIn (pat s : String) : Bool := hasSubList pat.data s.data

/-- Number of occurrences of the character c in s (Python str.count for
a single-character needle). -/
def countChar (s : String) (c : Char) : Nat := s.data.count c

/-- Python single-character membership test c in s. -/
def hasChar (s : String) (c : Char) : Bool := s.data.contains c

/-- Python str.lower restricted to the ASCII mapping used by image
names. -/
def pyLower (s : String) : String := (s.data.map Char.toLower).asString

/-- Python str.startswith on code points. -/
def pyStartsWith (s p : String) : Bool := leadsWith p.data s.data

/-- Python slicing s[n:] on code points. -/
def strDrop (s : String) (n : Nat) : String := (s.data.drop n).asString

/-- Segment of s before the first slash; the whole of s when s has no
slash (Python s.split with slash, index 0). -/
def firstSeg (s : String) : String := (s.data.takeWhile (· != '/')).asString

/-- Part of s strictly before the first colon. -/
def beforeColon (s : String) : String := (s.data.takeWhile (· != ':')).asString

/-- Part of s strictly after the first colon (empty when s has no colon). -/
def afterColon (s : String) : String := ((s.data.dropWhile (· != ':')).drop 1).asString

/-- Registry detection from the raw image reference, translated from
detect_registry in check-image.py. -/
def detect_registry (image : String) : String :=
  if pyStartsWith image "ghcr.io/" then "ghcr"
  else if pyStartsWith image "quay.io/" then "quay"
  else if pyStartsWith image "docker.io/" then "dockerhub"
  else if !hasChar image '/' || countChar image '/' == 1 then
    -- no registry host, or owner/image format, provided the first
    -- segment has no dot (a dot would indicate a registry domain)
    if !hasChar (firstSeg image) '.' then "dockerhub" else "unsupported"
  else "unsupported"

/-- Removal of the detected registry's literal host prefix from the
reference (first step of parse_image_spec). -/
def stripHost (image registry : String) : String :=
  if registry == "ghcr" then
    (if pyStartsWith image "ghcr.io/" then strDrop image 8 else image)
  else if registry == "quay" then
    (if pyStartsWith image "quay.io/" then strDrop image 8 else image)
  else if registry == "dockerhub" then
    (if pyStartsWith image "docker.io/" then strDrop image 10 else image)
  else image

/-- Reference parsing into repository and tag, translated from
parse_image_spec in check-image.py: strip the registry host prefix,
split on the first colon (tag defaults to latest), prepend library/ for
single-segment dockerhub repositories, and lower-case the repository. -/
def parse_image_spec (image registry : String) : String × String :=
  let stripped := stripHost image registry
  let rt : String × String :=
    if hasChar stripped ':' then (beforeColon stripped, afterColon stripped)
    else (stripped, "latest")
  let repository :=
    if registry == "dockerhub" && !hasChar rt.1 '/' then "library/" ++ rt.1
    else rt.1
  (pyLower repository, rt.2)

/-- Response body of a blob request, or the empty object when the
request raised (get_config_blob swallows every request exception). -/
def respOrEmpty : Option Json → Json
  | some j => j
  | none => Json.obj []

/-- Config-blob fetch, translated from get_config_blob in
check-image.py; http is the abstract network oracle receiving the URL
and the header list. For quay the Authorization header is sent only
when the token is truthy. Unknown registries return the empty object
without any request. -/
def get_config_blob (http : String → List (String × String) → Option Json)
    (registry repository digest token : String) : Json :=
  if registry == "dockerhub" then
    respOrEmpty (http ("https://registry-1.docker.io/v2/" ++ repository ++ "/blobs/" ++ digest)
      [("Authorization", "Bearer " ++ token)])
  else if registry == "ghcr" then
    respOrEmpty (http ("https://ghcr.io/v2/" ++ repository ++ "/blobs/" ++ digest)
      [("Authorization", "Bearer " ++ token)])
  else if registry == "quay" then
    respOrEmpty (http ("https://quay.io/v2/" ++ repository ++ "/blobs/" ++ digest)
      (if token != "" then [("Authorization", "Bearer " ++ token)] else []))
  else Json.obj []

/-- Architecture extraction from the entries of a manifests list: the
platform.architecture value of every entry having a platform key, in
order; none models the uncaught KeyError/TypeError the comprehension
would raise on an entry whose platform value lacks the architecture
key or is not an object. -/
def extractArchs : List Json → Option (List Json)
  | [] => some []
  | Json.obj fs :: rest =>
    match lookupField fs "platform" with
    | some (Json.obj pfs) =>
      match lookupField pfs "architecture" with
      | some a => (extractArchs rest).map (a :: ·)
      | none => none
    | some _ => none
    | none => extractArchs rest
  | _ :: _ => none

/-- Value of manifest.config.mediaType with Python defaults: the empty
string when config or mediaType is absent; none models the uncaught
exception on a non-object config or non-string mediaType. -/
def mediaTypeOf (manifest : Json) : Option String :=
  match manifest.getKey "config" with
  | none => some ""
  | some (Json.obj fs) =>
    match lookupField fs "mediaType" with
    | none => some ""
    | some (Json.str s) => some s
    | some _ => none
  | some _ => none

/-- Single-arch (config) branch of check_architectures: helm and
artifact media types yield the empty list; otherwise, when registry,
repository and token are all truthy and a truthy string digest is
present, the config blob is fetched and its truthy architecture value
returned as a singleton; every fallback yields the single string
unknown. A manifest with neither a truthy manifests value nor a truthy
config value yields the empty list. -/
def configBranch (http : String → List (String × String) → Option Json)
    (manifest : Json) (registry repository token : Option String) : Option (List Json) :=
  if optTruthy (manifest.getKey "config") then
    match mediaTypeOf manifest with
    | none => none
    | some ct =>
      if pyIn "helm" ct || pyIn "artifact" ct then some []
      else
        if optStrTruthy registry && optStrTruthy repository && optStrTruthy token then
          match (manifest.getKey "config").bind (fun c => c.getKey "digest") with
          | some d =>
            if d.truthy then
              match d with
              | Json.str ds =>
                let blob := get_config_blob http (registry.getD "") (repository.getD "")
                  ds (token.getD "")
                match blob.getKey "architecture" with
                | some a => if a.truthy then some [a] else some [Json.str "unknown"]
                | none => some [Json.str "unknown"]
              | _ => none
            else some [Json.str "unknown"]
          | none => some [Json.str "unknown"]
        else some [Json.str "unknown"]
  else some []

/-- Architecture resolution, translated from check_architectures in
check-image.py: a truthy manifests value (a non-empty list) gives the
extraction of its platform architectures; otherwise the config branch
applies. none models an uncaught exception. -/
def check_architectures (http : String → List (String × String) → Option Json)
    (manifest : Json) (registry repository token : Option String) : Option (List Json) :=
  if optTruthy (manifest.getKey "manifests") then
    match manifest.getKey "manifests" with
    | some (Json.arr entries) => extractArchs entries
    | _ => none
  else configBranch http manifest registry repository token

/-- Outcome of a token-provider call: a returned token value, a fatal
process exit (sys.exit 1), or an uncaught exception. -/
inductive AuthResult where
  | tok : Json → AuthResult
  | fatal : AuthResult
  | crash : AuthResult

/-- Anonymous GHCR token request: URL and scope parameter as in
get_ghcr_auth_token; a request exception is fatal, a response body
without the token key models the uncaught KeyError. -/
def ghcrAnonToken (http : String → List (String × String) → Option Json)
    (repository : String) : AuthResult :=
  match http "https://ghcr.io/token" [("scope", "repository:" ++ repository ++ ":pull")] with
  | some j =>
    match j.getKey "token" with
    | some v => AuthResult.tok v
    | none => AuthResult.crash
  | none => AuthResult.fatal

/-- GHCR token provider, translated from get_ghcr_auth_token: a truthy
GITHUB_TOKEN environment value is returned unchanged, otherwise the
anonymous token endpoint is called. -/
def get_ghcr_auth_token (env : String → Option String)
    (http : String → List (String × String) → Option Json)
    (repository : String) : AuthResult :=
  match env "GITHUB_TOKEN" with
  | some t => if t != "" then AuthResult.tok (Json.str t) else ghcrAnonToken http repository
  | none => ghcrAnonToken http repository

/-- Quay token provider, translated from get_quay_auth_token: the
QUAY_TOKEN environment value, possibly absent; no request is made
(the definition takes no network oracle). -/
def get_quay_auth_token (env : String → Option String) : Option String :=
  env "QUAY_TOKEN"

/-- Required architectures (TARGET_ARCHITECTURES in check-image.py). -/
def TARGET_ARCHITECTURES : List String := ["amd64", "arm64"]

/-- Python equality of a decoded JSON value with a string: only a
decoded string can compare equal to a str. -/
def jsonEqStr : Json → String → Bool
  | Json.str s, t => s == t
  | _, _ => false

/-- Required architectures absent from the resolved list (the reporter's
missing_targets set difference). -/
def missing_targets (archs : List Json) : List String :=
  TARGET_ARCHITECTURES.filter (fun t => !(archs.any (fun a => jsonEqStr a t)))

/-- Process exit status of the reporter block at the end of
check-image.py, as a function of the resolved architecture list: an
empty list reaches sys.exit 1; a non-empty list prints either the
success line or the missing-architecture lines, and in both of those
branches the script ends without any sys.exit call, so the process
exit status is 0. -/
def reporter_exit (archs : List Json) : Nat :=
  if archs.isEmpty then 1
  else if (missing_targets archs).isEmpty then 0
  else 0

/-- Registry detection as worded by the specification: the three host
prefixes in order, then dockerhub for a reference with no slash or
exactly one slash whose first segment has no dot, and unsupported
otherwise (in particular whenever the first segment of an unprefixed
name contains a dot). Stated separately from detect_registry so that
the two can be compared. -/
def detect_registry_spec (image : String) : String :=
  if pyStartsWith image "ghcr.io/" then "ghcr"
  else if pyStartsWith image "quay.io/" then "quay"
  else if pyStartsWith image "docker.io/" then "dockerhub"
  else if !hasChar image '/' && !hasChar (firstSeg image) '.' then "dockerhub"
  else if countChar image '/' == 1 && !hasChar (firstSeg image) '.' then "dockerhub"
  else "unsupported"

/-- Literal host prefix owned by a registry, as listed by the
specification of the reference parser. -/
def hostOf (registry : String) : String :=
  if registry == "ghcr" then "ghcr.io/"
  else if registry == "quay" then "quay.io/"
  else if registry == "dockerhub" then "docker.io/"
  else ""

/-- Reference parsing as worded by the specification: strip the
registry's exact literal host prefix when present, split on the first
colon with the tag defaulting to latest, prepend library/ for a
dockerhub repository without a slash, and lower-case the repository
leaving the tag unchanged. Stated separately from parse_image_spec so
that the two can be compared. -/
def parse_image_spec_spec (image registry : String) : String × String :=
  let host := hostOf registry
  let stripped := if pyStartsWith image host then strDrop image host.length else image
  let rt : String × String :=
    if hasChar stripped ':' then (beforeColon stripped, afterColon stripped)
    else (stripped, "latest")
  let repository :=
    if registry == "dockerhub" && !hasChar rt.1 '/' then "library/" ++ rt.1
    else rt.1
  (pyLower repository, rt.2)

/-- Well-formedness of one manifests-list entry: an object whose
platform value, when present, is an object carrying an architecture
key; exactly the entries on which the extraction comprehension cannot
raise. -/
def entryWF : Json → Bool
  | Json.obj fs =>
    match lookupField fs "platform" with
    | none => true
    | some (Json.obj pfs) => (lookupField pfs "architecture").isSome
    | some _ => false
  | _ => false

/-- Network oracle on which every request raises. -/
def httpNone : String → List (String × String) → Option Json := fun _ _ => none

/-- Network oracle answering every request with a config blob whose
architecture is arm64. -/
def httpArm64Blob : String → List (String × String) → Option Json :=
  fun _ _ => some (Json.obj [("architecture", Json.str "arm64")])

/-- Environment holding GITHUB_TOKEN = abc and nothing else. -/
def envGithubAbc : String → Option String :=
  fun k => if k == "GITHUB_TOKEN" then some "abc" else none

/-- Multi-arch index manifest with three platform entries. -/
def indexManifest3 : Json :=
  Json.obj [("manifests", Json.arr
    [Json.obj [("platform", Json.obj [("architecture", Json.str "amd64")])],
     Json.obj [("platform", Json.obj [("architecture", Json.str "arm64")])],
     Json.obj [("platform", Json.obj [("architecture", Json.str "arm")])]])]

/-- Helm-chart manifest: a config descriptor with a helm media type and
a digest. -/
def helmManifest : Json :=
  Json.obj [("config", Json.obj
    [("mediaType", Json.str "application/vnd.cncf.helm.config.v1+json"),
     ("digest", Json.str "sha256:abc")])]

/-- Single-arch container manifest: a config descriptor with the OCI
image-config media type and a digest. -/
def singleArchManifest : Json :=
  Json.obj [("config", Json.obj
    [("mediaType", Json.str "application/vnd.oci.image.config.v1+json"),
     ("digest", Json.str "sha256:abc")])]

/-- Manifest carrying an empty manifests list together with a config
descriptor; the input separating presence-based from truthiness-based
shape detection. -/
def emptyIndexConfigManifest : Json :=
  Json.obj [("manifests", Json.arr []),
    ("config", Json.obj [("mediaType", Json.str "")])]

/-- Repository component produced by the colon split of the stripped
reference, before dockerhub normalisation. -/
def repoPart (image registry : String) : String :=
  if hasChar (stripHost image registry) ':' then beforeColon (stripHost image registry)
  else stripHost image registry

/-- Tag component produced by the colon split of the stripped
reference. -/
def tagPart (image registry : String) : String :=
  if hasChar (stripHost image registry) ':' then afterColon (stripHost image registry)
  else "latest"

/-- Data of a packed character list. -/
theorem data_asString (l : List Char) : (List.asString l).data = l := rfl

/-- A string is non-empty exactly when its character list is. -/
theorem string_ne_empty_iff (s : String) : s ≠ "" ↔ s.data ≠ [] := by
  constructor
  · intro h hd
    exact h (String.ext_iff.mpr hd)
  · intro h he
    exact h (String.ext_iff.mp he)

/-- A string containing a character is non-empty. -/
theorem hasChar_ne_empty {s : String} {c : Char} (h : hasChar s c = true) : s ≠ "" := by
  intro he
  subst he
  simp [hasChar] at h

/-- Lower-casing preserves non-emptiness. -/
theorem pyLower_ne_empty {s : String} (h : s ≠ "") : pyLower s ≠ "" := by
  intro he
  apply h
  have hd : (s.data.map Char.toLower) = [] := String.ext_iff.mp he
  exact String.ext_iff.mpr (List.map_eq_nil_iff.mp hd)

/-- Appending to a non-empty string on the left stays non-empty. -/
theorem append_ne_empty_left {p r : String} (hp : p ≠ "") : p ++ r ≠ "" := by
  intro h
  have hd := String.ext_iff.mp h
  rw [String.data_append] at hd
  exact hp (String.ext_iff.mpr (List.append_eq_nil.mp hd).1)

/-- takeWhile with a disequality test keeps a list free of the tested
character whole. -/
theorem takeWhile_of_not_contains {c : Char} {l : List Char} (h : l.contains c = false) :
    l.takeWhile (· != c) = l := by
  induction l with
  | nil => rfl
  | cons a as ih =>
    rw [List.contains_cons, Bool.or_eq_false_iff] at h
    have hac : (a != c) = true := by
      cases hb : a == c
      · simp [bne, hb]
      · exact absurd (by simpa using (eq_of_beq hb).symm) (by simpa using h.1)
    rw [List.takeWhile_cons, if_pos hac, ih h.2]

/-- A string without a colon is its own before-colon part. -/
theorem beforeColon_of_no_colon {s : String} (h : hasChar s ':' = false) : beforeColon s = s := by
  unfold beforeColon
  unfold hasChar at h
  rw [takeWhile_of_not_contains h]
  exact String.ext_iff.mpr (data_asString _)

/-- C2: detect_registry classifies references exactly as the
specification words it: the three literal host prefixes in order, then
dockerhub for a name with no slash or exactly one slash whose first
segment carries no dot, and unsupported otherwise — in particular for
any unprefixed name whose first segment contains a dot. Both sides are
pure functions of the string, so determinism and purity hold by
construction. -/
theorem detect_registry_correct (image : String) :
    detect_registry image = detect_registry_spec image := by
  unfold detect_registry detect_registry_spec
  cases h4 : hasChar image '/' <;> cases h5 : countChar image '/' == 1 <;>
    cases h6 : hasChar (firstSeg image) '.' <;> simp [h4, h5, h6]

/-- C3: for the three supported registries, parse_image_spec coincides
with the specification's description: strip the registry's exact
literal host prefix when present, split on the first colon with tag
defaulting to latest, prepend library/ for a slash-free dockerhub
repository, and return the repository lower-cased with the tag
unchanged. -/
theorem parse_image_spec_correct (image registry : String)
    (h : registry = "ghcr" ∨ registry = "quay" ∨ registry = "dockerhub") :
    parse_image_spec image registry = parse_image_spec_spec image registry := by
  rcases h with h | h | h <;> subst h <;> rfl

/-- Witness for C3 at a concrete ghcr reference. -/
theorem parse_image_spec_correct_witness :
    ("ghcr" = "ghcr" ∨ "ghcr" = "quay" ∨ "ghcr" = "dockerhub") ∧
      parse_image_spec "ghcr.io/Owner/App:v1" "ghcr" =
        parse_image_spec_spec "ghcr.io/Owner/App:v1" "ghcr" :=
  ⟨Or.inl rfl, parse_image_spec_correct "ghcr.io/Owner/App:v1" "ghcr" (Or.inl rfl)⟩

/-- Factoring of parse_image_spec through its colon-split components. -/
theorem parse_image_spec_eq_parts (image registry : String) :
    parse_image_spec image registry =
      (pyLower (if registry == "dockerhub" && !hasChar (repoPart image registry) '/'
          then "library/" ++ repoPart image registry else repoPart image registry),
       tagPart image registry) := by
  unfold parse_image_spec repoPart tagPart
  cases hc : hasChar (stripHost image registry) ':' <;> simp [hc]

/-- The repository part is always the before-colon prefix of the
stripped reference. -/
theorem repoPart_eq_beforeColon (image registry : String) :
    repoPart image registry = beforeColon (stripHost image registry) := by
  unfold repoPart
  cases hc : hasChar (stripHost image registry) ':'
  · simp only [hc, Bool.false_eq_true, if_false]
    exact (beforeColon_of_no_colon hc).symm
  · simp only [hc, if_true]

/-- C7 counterexample: the reference ghcr.io/ resolves to the ghcr
registry and then parses to an empty repository, so the claimed
invariant that repository and tag are always non-empty after parsing
fails (the tag side fails likewise on nginx: whose tag parses empty). -/
theorem parse_nonempty_counterexample :
    detect_registry "ghcr.io/" = "ghcr" ∧
      (parse_image_spec "ghcr.io/" (detect_registry "ghcr.io/")).1 = "" := by
  decide

/-- C7 amended: for a supported registry, the parsed repository is
non-empty whenever the registry is dockerhub or the stripped reference
has at least one character before its first colon, and the parsed tag
is non-empty whenever the stripped reference has no colon or at least
one character after its first colon. -/
theorem parse_image_spec_nonempty (image registry : String)
    (hreg : registry = "ghcr" ∨ registry = "quay" ∨ registry = "dockerhub")
    (hrepo : registry = "dockerhub" ∨ beforeColon (stripHost image registry) ≠ "")
    (htag : hasChar (stripHost image registry) ':' = false ∨
      afterColon (stripHost image registry) ≠ "") :
    (parse_image_spec image registry).1 ≠ "" ∧ (parse_image_spec image registry).2 ≠ "" := by
  rw [parse_image_spec_eq_parts]
  constructor
  · show pyLower (if registry == "dockerhub" && !hasChar (repoPart image registry) '/'
      then "library/" ++ repoPart image registry else repoPart image registry) ≠ ""
    cases hl : (registry == "dockerhub" && !hasChar (repoPart image registry) '/')
    · simp only [hl, Bool.false_eq_true, if_false]
      apply pyLower_ne_empty
      cases hd : (registry == "dockerhub")
      · rcases hrepo with h | h
        · subst h
          simp at hd
        · rw [repoPart_eq_beforeColon]
          exact h
      · cases hslash : hasChar (repoPart image registry) '/'
        · rw [hd, hslash] at hl
          simp at hl
        · exact hasChar_ne_empty hslash
    · simp only [hl, if_true]
      exact pyLower_ne_empty (append_ne_empty_left (by decide))
  · show tagPart image registry ≠ ""
    unfold tagPart
    cases hc : hasChar (stripHost image registry) ':'
    · simp only [hc, Bool.false_eq_true, if_false]
      decide
    · simp only [hc, if_true]
      rcases htag with h | h
      · rw [h] at hc
        exact Bool.noConfusion hc
      · exact h

/-- Witness for the amended C7 at a concrete ghcr reference. -/
theorem parse_image_spec_nonempty_witness :
    (parse_image_spec "ghcr.io/owner/app:v1" "ghcr").1 ≠ "" ∧
      (parse_image_spec "ghcr.io/owner/app:v1" "ghcr").2 ≠ "" :=
  parse_image_spec_nonempty "ghcr.io/owner/app:v1" "ghcr" (Or.inl rfl)
    (Or.inr (by decide)) (Or.inr (by decide))

/-- Extraction over a well-formed entry list is the filterMap of the
platform.architecture lookup. -/
theorem extractArchs_eq_filterMap (entries : List Json) (h : entries.all entryWF = true) :
    extractArchs entries = some (entries.filterMap
      (fun e => (e.getKey "platform").bind (fun p => p.getKey "architecture"))) := by
  induction entries with
  | nil => rfl
  | cons e rest ih =>
    rw [List.all_cons, Bool.and_eq_true] at h
    obtain ⟨he, hrest⟩ := h
    cases e with
    | obj fs =>
      rw [List.filterMap_cons]
      cases hp : lookupField fs "platform" with
      | none =>
        simp [extractArchs, hp, Json.getKey, ih hrest]
      | some p =>
        cases p with
        | obj pfs =>
          have he' : (lookupField pfs "architecture").isSome = true := by
            simpa [entryWF, hp] using he
          obtain ⟨a, ha⟩ := Option.isSome_iff_exists.mp he'
          simp [extractArchs, hp, ha, Json.getKey, ih hrest]
        | null => simp [entryWF, hp] at he
        | bool b => simp [entryWF, hp] at he
        | str s => simp [entryWF, hp] at he
        | num n => simp [entryWF, hp] at he
        | arr xs => simp [entryWF, hp] at he
    | null => simp [entryWF] at he
    | bool b => simp [entryWF] at he
    | str s => simp [entryWF] at he
    | num n => simp [entryWF] at he
    | arr xs => simp [entryWF] at he

/-- C4: for a manifest whose manifests field holds a non-empty list of
well-formed entries, resolution returns the platform.architecture value
of every entry that has a platform field, in manifest order, duplicates
preserved and platform-less entries skipped; the oracle, registry,
repository and token play no role. -/
theorem check_architectures_index
    (http : String → List (String × String) → Option Json) (manifest : Json)
    (registry repository token : Option String) (entries : List Json)
    (hm : manifest.getKey "manifests" = some (Json.arr entries))
    (hne : entries ≠ [])
    (hwf : entries.all entryWF = true) :
    check_architectures http manifest registry repository token =
      some (entries.filterMap
        (fun e => (e.getKey "platform").bind (fun p => p.getKey "architecture"))) := by
  unfold check_architectures
  rw [hm]
  simp [optTruthy, Json.truthy, hne, extractArchs_eq_filterMap entries hwf]

/-- Witness for C4 on the three-entry index manifest of the
specification's example. -/
theorem check_architectures_index_witness :
    check_architectures httpNone indexManifest3 none none none =
      some [Json.str "amd64", Json.str "arm64", Json.str "arm"] :=
  (check_architectures_index httpNone indexManifest3 none none none
    [Json.obj [("platform", Json.obj [("architecture", Json.str "amd64")])],
     Json.obj [("platform", Json.obj [("architecture", Json.str "arm64")])],
     Json.obj [("platform", Json.obj [("architecture", Json.str "arm")])]]
    rfl (by simp) rfl).trans rfl

/-- C5: a manifest in the config branch (no truthy manifests list)
whose config media type contains helm or artifact resolves to the empty
list for every network oracle and regardless of any digest, so no
config-blob fetch can influence the result. -/
theorem check_architectures_helm_artifact
    (http : String → List (String × String) → Option Json) (manifest : Json)
    (registry repository token : Option String) (ct : String)
    (hidx : optTruthy (manifest.getKey "manifests") = false)
    (hcfg : optTruthy (manifest.getKey "config") = true)
    (hct : mediaTypeOf manifest = some ct)
    (hh : pyIn "helm" ct = true ∨ pyIn "artifact" ct = true) :
    check_architectures http manifest registry repository token = some [] := by
  unfold check_architectures
  rw [hidx]
  simp only [Bool.false_eq_true, if_false]
  unfold configBranch
  rw [hcfg, hct]
  simp only [if_true]
  rcases hh with h | h <;> simp [h]

/-- Witness for C5 on a helm-chart manifest carrying a digest, with an
oracle that would answer any fetch. -/
theorem check_architectures_helm_artifact_witness :
    check_architectures httpArm64Blob helmManifest (some "quay") (some "ns/img") (some "tok") =
      some [] :=
  check_architectures_helm_artifact httpArm64Blob helmManifest
    (some "quay") (some "ns/img") (some "tok")
    "application/vnd.cncf.helm.config.v1+json" rfl rfl rfl (Or.inl rfl)

/-- C8 counterexample: a manifest containing a manifests field holding
the empty list together with a config field is not treated as index
shape; the config path runs and yields the singleton unknown instead
of the empty list the presence-based claim predicts. -/
theorem shape_detection_counterexample :
    emptyIndexConfigManifest.getKey "manifests" = some (Json.arr []) ∧
      check_architectures httpNone emptyIndexConfigManifest none none none =
        some [Json.str "unknown"] :=
  ⟨rfl, rfl⟩

/-- C8 amended: shape detection is by truthiness, not presence: a
manifest whose manifests field holds a non-empty list is resolved by
index extraction — the config path is never taken for it, even when a
config field is also present — while a manifest whose manifests field
holds the empty list is handled entirely by the config branch. -/
theorem check_architectures_shape
    (http : String → List (String × String) → Option Json) (manifest : Json)
    (registry repository token : Option String) (entries : List Json)
    (hm : manifest.getKey "manifests" = some (Json.arr entries)) :
    (entries ≠ [] →
      check_architectures http manifest registry repository token = extractArchs entries) ∧
    (entries = [] →
      check_architectures http manifest registry repository token =
        configBranch http manifest registry repository token) := by
  constructor
  · intro hne
    unfold check_architectures
    rw [hm]
    simp [optTruthy, Json.truthy, hne]
  · intro he
    subst he
    unfold check_architectures
    rw [hm]
    simp [optTruthy, Json.truthy]

/-- Witness for the amended C8 on the empty-list-plus-config manifest. -/
theorem check_architectures_shape_witness :
    check_architectures httpNone emptyIndexConfigManifest none none none =
      configBranch httpNone emptyIndexConfigManifest none none none :=
  (check_architectures_shape httpNone emptyIndexConfigManifest none none none [] rfl).2 rfl

/-- C6: in the single-arch config branch with truthy registry,
repository and token and a truthy string digest, resolution returns the
singleton architecture of the fetched config blob when that fetch
produced a truthy architecture field, and the singleton unknown when
the fetched blob has no truthy architecture field — in particular when
every request raises, since the blob fetcher then degrades to the empty
object. -/
theorem check_architectures_single_arch
    (http : String → List (String × String) → Option Json) (manifest : Json)
    (r rp tk ct ds : String) (cfs : List (String × Json))
    (hidx : optTruthy (manifest.getKey "manifests") = false)
    (hcfg : manifest.getKey "config" = some (Json.obj cfs))
    (hcfgt : (Json.obj cfs).truthy = true)
    (hct : mediaTypeOf manifest = some ct)
    (hh : pyIn "helm" ct = false) (ha : pyIn "artifact" ct = false)
    (hr : r ≠ "") (hrp : rp ≠ "") (htk : tk ≠ "")
    (hd : lookupField cfs "digest" = some (Json.str ds)) (hds : ds ≠ "") :
    (∀ a, (get_config_blob http r rp ds tk).getKey "architecture" = some a → a.truthy = true →
      check_architectures http manifest (some r) (some rp) (some tk) = some [a]) ∧
    ((∀ a, (get_config_blob http r rp ds tk).getKey "architecture" = some a → a.truthy = false) →
      check_architectures http manifest (some r) (some rp) (some tk) =
        some [Json.str "unknown"]) ∧
    ((∀ u hs, http u hs = none) →
      check_architectures http manifest (some r) (some rp) (some tk) =
        some [Json.str "unknown"]) := by
  have key : check_architectures http manifest (some r) (some rp) (some tk) =
      (match (get_config_blob http r rp ds tk).getKey "architecture" with
       | some a => if a.truthy then some [a] else some [Json.str "unknown"]
       | none => some [Json.str "unknown"]) := by
    unfold check_architectures
    rw [hidx]
    simp only [Bool.false_eq_true, if_false]
    unfold configBranch
    rw [hcfg, hct]
    simp only [optTruthy, hcfgt, if_true, hh, ha, Bool.or_self, Bool.false_eq_true, if_false]
    have hr' : (r != "") = true := by simp [hr]
    have hrp' : (rp != "") = true := by simp [hrp]
    have htk' : (tk != "") = true := by simp [htk]
    simp only [optStrTruthy, hr', hrp', htk', Bool.and_self, if_true, Option.bind,
      Json.getKey, hd, Json.truthy, Option.getD]
    have hds' : (ds != "") = true := by simp [hds]
    simp only [hds', if_true]
  refine ⟨?_, ?_, ?_⟩
  · intro a hA ht
    rw [key, hA]
    simp [ht]
  · intro hF
    rw [key]
    cases hB : (get_config_blob http r rp ds tk).getKey "architecture" with
    | none => simp
    | some a =>
      have := hF a hB
      simp [this]
  · intro hnone
    have hblob : get_config_blob http r rp ds tk = Json.obj [] := by
      unfold get_config_blob
      repeat' split
      all_goals simp [respOrEmpty, hnone]
    rw [key, hblob]
    rfl

/-- Witness for C6 on the single-arch manifest with a blob oracle
answering arm64. -/
theorem check_architectures_single_arch_witness :
    check_architectures httpArm64Blob singleArchManifest
      (some "dockerhub") (some "library/nginx") (some "tok") = some [Json.str "arm64"] :=
  (check_architectures_single_arch httpArm64Blob singleArchManifest
    "dockerhub" "library/nginx" "tok" "application/vnd.oci.image.config.v1+json" "sha256:abc"
    [("mediaType", Json.str "application/vnd.oci.image.config.v1+json"),
     ("digest", Json.str "sha256:abc")]
    rfl rfl rfl rfl rfl rfl (by decide) (by decide) (by decide) rfl (by decide)).1
    (Json.str "arm64") rfl rfl

/-- C10: for a quay reference with no token, the single-arch config
branch always resolves to the singleton unknown, for every network
oracle — the truthy-token guard blocks the config-blob fetch — even
though the blob fetcher itself supports token-less quay requests,
sending no Authorization header and returning the response body. -/
theorem quay_missing_token_unknown
    (http : String → List (String × String) → Option Json) (manifest : Json)
    (repository : Option String) (ct : String)
    (hidx : optTruthy (manifest.getKey "manifests") = false)
    (hcfg : optTruthy (manifest.getKey "config") = true)
    (hct : mediaTypeOf manifest = some ct)
    (hh : pyIn "helm" ct = false) (ha : pyIn "artifact" ct = false) :
    check_architectures http manifest (some "quay") repository none =
      some [Json.str "unknown"] ∧
    (∀ rp ds, get_config_blob http "quay" rp ds "" =
      respOrEmpty (http ("https://quay.io/v2/" ++ rp ++ "/blobs/" ++ ds) [])) := by
  constructor
  · unfold check_architectures
    rw [hidx]
    simp only [Bool.false_eq_true, if_false]
    unfold configBranch
    rw [hcfg, hct]
    simp [hh, ha, optStrTruthy]
  · intro rp ds
    rfl

/-- Witness for C10 on the single-arch manifest with an oracle that
would answer any fetch with an arm64 blob. -/
theorem quay_missing_token_unknown_witness :
    check_architectures httpArm64Blob singleArchManifest (some "quay") (some "ns/img") none =
      some [Json.str "unknown"] :=
  (quay_missing_token_unknown httpArm64Blob singleArchManifest (some "ns/img")
    "application/vnd.oci.image.config.v1+json" rfl rfl rfl rfl rfl).1

/-- C9: the GHCR provider returns a truthy GITHUB_TOKEN environment
value unchanged, with no validation and independently of the network
oracle; without one it performs the anonymous token request scoped to
the repository. The quay provider is the QUAY_TOKEN environment value,
absent when unset, and takes no network oracle at all. -/
theorem auth_env_token_behavior (env : String → Option String)
    (http : String → List (String × String) → Option Json) (repository : String) :
    (∀ t, env "GITHUB_TOKEN" = some t → t ≠ "" →
      get_ghcr_auth_token env http repository = AuthResult.tok (Json.str t)) ∧
    (optStrTruthy (env "GITHUB_TOKEN") = false →
      get_ghcr_auth_token env http repository = ghcrAnonToken http repository) ∧
    get_quay_auth_token env = env "QUAY_TOKEN" := by
  refine ⟨?_, ?_, rfl⟩
  · intro t h ht
    unfold get_ghcr_auth_token
    rw [h]
    simp [ht]
  · intro h
    unfold get_ghcr_auth_token
    cases he : env "GITHUB_TOKEN" with
    | none => rfl
    | some t =>
      rw [he] at h
      simp only [optStrTruthy] at h
      simp [h]

/-- Witness for C9 on an environment holding GITHUB_TOKEN = abc and no
QUAY_TOKEN. -/
theorem auth_env_token_behavior_witness :
    get_ghcr_auth_token envGithubAbc httpNone "r" = AuthResult.tok (Json.str "abc") ∧
      get_quay_auth_token envGithubAbc = none :=
  ⟨(auth_env_token_behavior envGithubAbc httpNone "r").1 "abc" rfl (by decide),
   ((auth_env_token_behavior envGithubAbc httpNone "r").2.2).trans rfl⟩

/-- C1 evidence: the reporter block exits 0 on full coverage, but also
exits 0 when required architectures are missing — for the resolved list
holding only amd64 the missing set is exactly arm64, the failure lines
are printed, and the script ends without any sys.exit call, so the
process status is 0 where the specification requires 1. -/
theorem reporter_exit_missing_arch :
    reporter_exit [Json.str "amd64", Json.str "arm64"] = 0 ∧
      missing_targets [Json.str "amd64"] = ["arm64"] ∧
      reporter_exit [Json.str "amd64"] = 0 :=
  ⟨rfl, rfl, rfl⟩
